import Mathlib

/-!
Shallow embedding of the LuxeWash car-wash booking service (`src/app.py`).

The application is a set of Flask request handlers over four SQL tables
(users, bookings, feedback, shops) plus a cookie session.  Each handler is a
pure function from the request data and the database/session state to the
successor state and an HTTP response.  Rows are modelled as structures whose
fields mirror the table columns; nullable TEXT columns become `Option String`.
Password hashing (`generate_password_hash` / `check_password_hash` from
werkzeug) is an external collaborator, modelled by function parameters
`gen : String → String` and `chk : String → String → Bool`.
Form values are `Option String` (`request.form.get` yields `None` when the
field is absent); Python truthiness on them is the `falsy` test below.
SERIAL primary keys are modelled by monotone counters in the state.
-/

/-- A row of the `users` table (id SERIAL, name, email UNIQUE, phone UNIQUE,
password — the stored werkzeug hash). -/
structure User where
  id : Nat
  name : String
  email : String
  phone : String
  password : String
deriving DecidableEq, Repr

/-- A row of the `bookings` table; the TEXT columns are nullable, `status`
has column default "Pending". -/
structure Booking where
  id : Nat
  user_id : Nat
  name : Option String
  phone : Option String
  email : Option String
  car_type : Option String
  service_type : Option String
  date : Option String
  time : Option String
  address : Option String
  status : String
deriving DecidableEq, Repr

/-- A row of the `feedback` table.  The handler defaults `name` to
"Anonymous" before inserting, so the stored name is a plain `String`. -/
structure Feedback where
  id : Nat
  name : String
  rating : Option String
  text : Option String
deriving DecidableEq, Repr

/-- JSON response bodies produced by the handlers (`jsonify` payloads). -/
inductive Body where
  | err (e : String)
  | msg (success : Bool) (message : String)
  | signinOk (message : String) (user : User)
  | orders (rows : List Booking)
  | feedbacks (rows : List Feedback)
deriving DecidableEq, Repr

/-- An HTTP response: status code and JSON body. -/
structure Resp where
  status : Nat
  body : Body
deriving DecidableEq, Repr

/-- The observable server state: the three tables the claims touch, the
session (Flask's `session["user"]`, which `signin` sets to `dict(user)`,
a full row), and the SERIAL counters. -/
structure State where
  users : List User
  bookings : List Booking
  feedback : List Feedback
  session : Option User
  nextUserId : Nat
  nextBookingId : Nat
  nextFeedbackId : Nat
deriving DecidableEq, Repr

/-- Python truthiness test applied by the handlers to form values:
`None` and the empty string are falsy. -/
def falsy : Option String → Bool
  | none => true
  | some s => s == ""

/-- Insert `a` into a list kept in descending `key` order (helper for
modelling `ORDER BY id DESC`). -/
def insertDesc (key : α → Nat) (a : α) : List α → List α
  | [] => [a]
  | b :: l => if key b ≤ key a then a :: b :: l else b :: insertDesc key a l

/-- Sort a list into descending `key` order, modelling `ORDER BY id DESC`. -/
def sortDesc (key : α → Nat) : List α → List α
  | [] => []
  | a :: l => insertDesc key a (sortDesc key l)

/-- `POST /api/signup` (`signup` in src/app.py): presence check on the four
form fields, hash the password with `gen`, insert; a unique-constraint hit
on email or phone (`IntegrityError`) rolls back and yields 409. -/
def signup (gen : String → String) (name email phone password : Option String)
    (st : State) : State × Resp :=
  if falsy name || falsy email || falsy phone || falsy password then
    (st, ⟨400, Body.err ("Missing required fields")⟩)
  else if st.users.any (fun u => u.email == email.getD "") ||
          st.users.any (fun u => u.phone == phone.getD "") then
    (st, ⟨409, Body.err ("Email or phone number already registered.")⟩)
  else
    ({st with
        users := st.users ++
          [⟨st.nextUserId, name.getD "", email.getD "", phone.getD "",
            gen (password.getD "")⟩],
        nextUserId := st.nextUserId + 1},
     ⟨201, Body.msg true ("Account created successfully.")⟩)

/-- `POST /api/signin` (`signin` in src/app.py): `SELECT * FROM users WHERE
email = ? OR phone = ?` followed by `fetchone()` (the first matching row in
table order), then `check_password_hash` (`chk`).  On success the session is
set to `dict(user)` — the full row — and that dict is echoed in the body. -/
def signin (chk : String → String → Bool) (login password : Option String)
    (st : State) : State × Resp :=
  if falsy login || falsy password then
    (st, ⟨400, Body.err ("Missing login credentials")⟩)
  else
    match st.users.find? (fun u => u.email == login.getD "" || u.phone == login.getD "") with
    | some u =>
      if chk u.password (password.getD "") then
        ({st with session := some u},
         ⟨200, Body.signinOk ("Login successful.") u⟩)
      else (st, ⟨401, Body.err ("Invalid credentials")⟩)
    | none => (st, ⟨401, Body.err ("Invalid credentials")⟩)

/-- `POST /api/logout`: `session.pop("user", None)` then 200. -/
def logout (st : State) : State × Resp :=
  ({st with session := none}, ⟨200, Body.msg true ("Logged out successfully.")⟩)

/-- The form fields of `POST /api/booking` (keys name, phone, email, carType,
serviceType, date, time, address; any of them may be absent). -/
structure BookingForm where
  name : Option String
  phone : Option String
  email : Option String
  carType : Option String
  serviceType : Option String
  date : Option String
  time : Option String
  address : Option String
deriving DecidableEq, Repr

/-- `POST /api/booking` (`booking` in src/app.py): requires a session; the
form values are inserted as-is with no validation, `status` takes the column
default "Pending", `user_id` is stamped from the session. -/
def booking (form : BookingForm) (st : State) : State × Resp :=
  match st.session with
  | none => (st, ⟨401, Body.err ("Unauthorized")⟩)
  | some u =>
    ({st with
        bookings := st.bookings ++
          [⟨st.nextBookingId, u.id, form.name, form.phone, form.email,
            form.carType, form.serviceType, form.date, form.time,
            form.address, "Pending"⟩],
        nextBookingId := st.nextBookingId + 1},
     ⟨201, Body.msg true ("Booking created successfully.")⟩)

/-- The row list returned by `SELECT * FROM bookings WHERE user_id = ?
ORDER BY id DESC`. -/
def listOrdersFor (uid : Nat) (st : State) : List Booking :=
  sortDesc (fun b => b.id) (st.bookings.filter (fun b => b.user_id == uid))

/-- `GET /api/orders` (`get_orders` in src/app.py): requires a session;
returns the caller's bookings, newest id first. -/
def get_orders (st : State) : State × Resp :=
  match st.session with
  | none => (st, ⟨401, Body.err ("Unauthorized")⟩)
  | some u => (st, ⟨200, Body.orders (listOrdersFor u.id st)⟩)

/-- `DELETE /api/orders/<id>` (`cancel_order` in src/app.py): requires a
session; `DELETE FROM bookings WHERE id = ? AND user_id = ?`; a zero
rowcount rolls back and yields 404 — wrong id and not-owned are
indistinguishable. -/
def cancel_order (order_id : Nat) (st : State) : State × Resp :=
  match st.session with
  | none => (st, ⟨401, Body.err ("Unauthorized")⟩)
  | some u =>
    if st.bookings.countP (fun b => b.id == order_id && b.user_id == u.id) = 0 then
      (st, ⟨404, Body.err ("Order not found or not owned by user")⟩)
    else
      ({st with
          bookings := st.bookings.filter
            (fun b => !(b.id == order_id && b.user_id == u.id))},
       ⟨200, Body.msg true ("Order cancelled.")⟩)

/-- `PUT /api/orders/<id>/status` (`update_order_status` in src/app.py):
requires a session and a truthy `status`; `UPDATE bookings SET status = ?
WHERE id = ? AND user_id = ?`; zero rowcount yields 404. -/
def update_order_status (order_id : Nat) (status : Option String)
    (st : State) : State × Resp :=
  match st.session with
  | none => (st, ⟨401, Body.err ("Unauthorized")⟩)
  | some u =>
    if falsy status then (st, ⟨400, Body.err ("New status not provided")⟩)
    else
      if st.bookings.countP (fun b => b.id == order_id && b.user_id == u.id) = 0 then
        (st, ⟨404, Body.err ("Order not found or not owned by user")⟩)
      else
        ({st with
            bookings := st.bookings.map
              (fun b => if b.id == order_id && b.user_id == u.id then
                          {b with status := status.getD ""} else b)},
         ⟨200, Body.msg true ("Order status updated to " ++ status.getD "" ++ ".")⟩)

/-- `POST /api/feedback` (`feedback` in src/app.py, POST branch):
`data.get("name", "Anonymous")`, insert, 201.  No session required. -/
def submit_feedback (name rating text : Option String) (st : State) : State × Resp :=
  ({st with
      feedback := st.feedback ++
        [⟨st.nextFeedbackId, name.getD "Anonymous", rating, text⟩],
      nextFeedbackId := st.nextFeedbackId + 1},
   ⟨201, Body.msg true ("Feedback submitted.")⟩)

/-- `GET /api/feedback` (`feedback` in src/app.py, GET branch):
`SELECT * FROM feedback ORDER BY id DESC LIMIT 10`. -/
def list_feedback (st : State) : State × Resp :=
  (st, ⟨200, Body.feedbacks ((sortDesc (fun f => f.id) st.feedback).take 10)⟩)

/-- A concrete instance of the hash collaborator, for evaluating witnesses:
`genHash p` is the stored hash of `p`. -/
def genHash (p : String) : String := "h:" ++ p

/-- The matching concrete verifier: `chkHash h p` checks `h` against `p`. -/
def chkHash (h p : String) : Bool := h == "h:" ++ p

/-- A sample user, for concrete evaluations. -/
def uAlice : User := ⟨1, "A", "a@x", "111", "h:p"⟩

/-- A second sample user. -/
def uBob : User := ⟨2, "B", "b@x", "222", "h:q"⟩

/-- A sample booking with all nullable fields null, owned by `uid`. -/
def bk (i uid : Nat) : Booking :=
  ⟨i, uid, none, none, none, none, none, none, none, none, "Pending"⟩

/-- The empty initial state (fresh tables, no session). -/
def stEmpty : State := ⟨[], [], [], none, 1, 1, 1⟩

/-- A state holding only `uAlice`, no session. -/
def stOne : State := ⟨[uAlice], [], [], none, 2, 1, 1⟩

/-- A state where `uAlice`'s phone ("111") equals a second user's email:
both columns stay unique, yet the identifier "111" matches two rows. -/
def stCross : State :=
  ⟨[uAlice, ⟨2, "B", "111", "222", "h:p2"⟩], [], [], none, 3, 1, 1⟩

/-- A state with two users, three bookings (two of Alice's, one of Bob's)
and Alice signed in. -/
def stOrders : State :=
  ⟨[uAlice, uBob], [bk 1 1, bk 2 2, bk 3 1], [], some uAlice, 3, 4, 1⟩

/-- A state whose users table starts with `uBob` and whose next SERIAL id
is 5; signup of a fresh user here gets id 5. -/
def stShift : State := ⟨[uBob], [], [], none, 5, 1, 1⟩

/-- Twelve feedback rows with ascending ids 1..12. -/
def fbRows : List Feedback :=
  (List.range 12).map (fun k => ⟨k + 1, "Anonymous", none, none⟩)

/-- A state whose feedback table holds `fbRows`. -/
def stFb : State := ⟨[], [], fbRows, none, 1, 1, 13⟩

/-! ### Properties of the `ORDER BY id DESC` model -/

theorem perm_insertDesc (key : α → Nat) (a : α) (l : List α) :
    (insertDesc key a l).Perm (a :: l) := by
  induction l with
  | nil => exact List.Perm.refl _
  | cons b l ih =>
    simp only [insertDesc]
    split
    · exact List.Perm.refl _
    · exact List.Perm.trans (List.Perm.cons b ih) (List.Perm.swap a b l)

theorem perm_sortDesc (key : α → Nat) (l : List α) : (sortDesc key l).Perm l := by
  induction l with
  | nil => exact List.Perm.refl _
  | cons a l ih =>
    exact List.Perm.trans (perm_insertDesc key a (sortDesc key l)) (List.Perm.cons a ih)

theorem mem_sortDesc (key : α → Nat) (a : α) (l : List α) :
    a ∈ sortDesc key l ↔ a ∈ l :=
  (perm_sortDesc key l).mem_iff

theorem pairwise_insertDesc (key : α → Nat) (a : α) (l : List α)
    (h : l.Pairwise (fun x y => key y ≤ key x)) :
    (insertDesc key a l).Pairwise (fun x y => key y ≤ key x) := by
  induction l with
  | nil => simp [insertDesc]
  | cons b l ih =>
    rw [List.pairwise_cons] at h
    simp only [insertDesc]
    split
    case isTrue hba =>
      refine List.Pairwise.cons ?_ (List.Pairwise.cons h.1 h.2)
      intro y hy
      rcases List.mem_cons.mp hy with rfl | hy
      · exact hba
      · exact le_trans (h.1 y hy) hba
    case isFalse hba =>
      refine List.Pairwise.cons ?_ (ih h.2)
      intro y hy
      rcases List.mem_cons.mp ((perm_insertDesc key a l).mem_iff.mp hy) with rfl | hy
      · exact Nat.le_of_lt (Nat.lt_of_not_le hba)
      · exact h.1 y hy

theorem pairwise_sortDesc (key : α → Nat) (l : List α) :
    (sortDesc key l).Pairwise (fun x y => key y ≤ key x) := by
  induction l with
  | nil => simp [sortDesc]
  | cons a l ih => exact pairwise_insertDesc key a (sortDesc key l) ih

theorem insertDesc_of_lt (key : α → Nat) (a : α) (l : List α)
    (h : ∀ b ∈ l, key a < key b) : insertDesc key a l = l ++ [a] := by
  induction l with
  | nil => rfl
  | cons b l ih =>
    simp only [insertDesc]
    rw [if_neg (Nat.not_le.mpr (h b (List.mem_cons_self b l)))]
    rw [ih (fun c hc => h c (List.mem_cons_of_mem b hc))]
    rfl

theorem sortDesc_eq_reverse (key : α → Nat) (l : List α)
    (h : l.Pairwise (fun x y => key x < key y)) : sortDesc key l = l.reverse := by
  induction l with
  | nil => rfl
  | cons a l ih =>
    rw [List.pairwise_cons] at h
    simp only [sortDesc]
    rw [ih h.2, insertDesc_of_lt key a l.reverse
      (fun b hb => h.1 b (List.mem_reverse.mp hb))]
    rw [List.reverse_cons]

/-! ### Claim theorems -/

/-- **C8**: `logout` destroys the current session unconditionally and is
idempotent: it always answers 200 with the same body, the resulting state
has no session, a second `logout` returns exactly the same state and
response, and on a state that already has no session it is a state no-op
that still answers 200. -/
theorem logout_spec (st : State) :
    logout st = ({st with session := none},
      ⟨200, Body.msg true ("Logged out successfully.")⟩) ∧
    logout (logout st).1 = ((logout st).1, (logout st).2) ∧
    (st.session = none →
      logout st = (st, ⟨200, Body.msg true ("Logged out successfully.")⟩)) := by
  refine ⟨rfl, rfl, ?_⟩
  intro h
  cases st
  simp_all [logout]

/-- Witness for C8 at a concrete session-free state. -/
theorem logout_spec_witness :
    stEmpty.session = none ∧
    logout stEmpty = (stEmpty, ⟨200, Body.msg true ("Logged out successfully.")⟩) :=
  ⟨rfl, (logout_spec stEmpty).2.2 rfl⟩

/-- **C10**: with an active session, `booking` performs no validation: with
every form field absent it still inserts a row whose nullable fields are all
null, stamped with the session user's id and default status "Pending", and
answers 201. -/
theorem booking_empty_form_inserts (st : State) (u : User)
    (hs : st.session = some u) :
    booking ⟨none, none, none, none, none, none, none, none⟩ st =
      ({st with
          bookings := st.bookings ++
            [⟨st.nextBookingId, u.id, none, none, none, none, none, none, none,
              none, "Pending"⟩],
          nextBookingId := st.nextBookingId + 1},
       ⟨201, Body.msg true ("Booking created successfully.")⟩) := by
  simp [booking, hs]

/-- Witness for C10: Alice is signed in in `stOrders`; an all-empty booking
form still creates row 4. -/
theorem booking_empty_form_inserts_witness :
    stOrders.session = some uAlice ∧
    booking ⟨none, none, none, none, none, none, none, none⟩ stOrders =
      ({stOrders with
          bookings := stOrders.bookings ++
            [⟨stOrders.nextBookingId, uAlice.id, none, none, none, none, none,
              none, none, none, "Pending"⟩],
          nextBookingId := stOrders.nextBookingId + 1},
       ⟨201, Body.msg true ("Booking created successfully.")⟩) :=
  ⟨rfl, booking_empty_form_inserts stOrders uAlice rfl⟩

/-- **C3** (refuted — the code leaks the hash): after a successful `signin`
the session holds the full user row including the stored password hash
("h:p"), and the 200 body echoes that full row back to the caller. -/
theorem signin_leaks_password_hash :
    (signin chkHash (some "a@x") (some "p") stOne).1.session = some uAlice ∧
    uAlice.password = "h:p" ∧
    (signin chkHash (some "a@x") (some "p") stOne).2 =
      ⟨200, Body.signinOk ("Login successful.") uAlice⟩ := by
  decide

/-- **C6** (counterexample): two successful signups that create different
user ids (1 in `stEmpty`, 5 in `stShift`) return identical responses: the
201 response does not carry the new user id. -/
theorem signup_response_lacks_id :
    (signup genHash (some "A") (some "a@x") (some "111") (some "p") stEmpty).2 =
      (signup genHash (some "A") (some "a@x") (some "111") (some "p") stShift).2 ∧
    (signup genHash (some "A") (some "a@x") (some "111") (some "p") stEmpty).1.users =
      [⟨1, "A", "a@x", "111", "h:p"⟩] ∧
    (signup genHash (some "A") (some "a@x") (some "111") (some "p") stShift).1.users =
      [uBob, ⟨5, "A", "a@x", "111", "h:p"⟩] := by
  decide

/-- **C6** (amended): a signup whose four fields are present and non-empty
and whose email and phone are fresh appends exactly one user row carrying
the next SERIAL id and answers 201 with a success message; the body does
not include the new id. -/
theorem signup_success_spec (gen : String → String) (n e p pw : String) (st : State)
    (hn : n ≠ "") (he : e ≠ "") (hp : p ≠ "") (hpw : pw ≠ "")
    (hemail : ∀ u ∈ st.users, u.email ≠ e) (hphone : ∀ u ∈ st.users, u.phone ≠ p) :
    signup gen (some n) (some e) (some p) (some pw) st =
      ({st with
          users := st.users ++ [⟨st.nextUserId, n, e, p, gen pw⟩],
          nextUserId := st.nextUserId + 1},
       ⟨201, Body.msg true ("Account created successfully.")⟩) := by
  have h1 : falsy (some n) = false := by simp [falsy, hn]
  have h2 : falsy (some e) = false := by simp [falsy, he]
  have h3 : falsy (some p) = false := by simp [falsy, hp]
  have h4 : falsy (some pw) = false := by simp [falsy, hpw]
  have hae : st.users.any (fun u => u.email == (some e).getD "") = false := by
    simp only [Option.getD_some, List.any_eq_false, beq_iff_eq]
    exact hemail
  have hap : st.users.any (fun u => u.phone == (some p).getD "") = false := by
    simp only [Option.getD_some, List.any_eq_false, beq_iff_eq]
    exact hphone
  simp [signup, h1, h2, h3, h4, hae, hap]
  exact ⟨hemail, hphone⟩

/-- Witness for the amended C6: signup of a fresh user into the empty state. -/
theorem signup_success_spec_witness :
    ("A" : String) ≠ "" ∧ ("a@x" : String) ≠ "" ∧ ("111" : String) ≠ "" ∧
    ("p" : String) ≠ "" ∧ (∀ u ∈ stEmpty.users, u.email ≠ "a@x") ∧
    (∀ u ∈ stEmpty.users, u.phone ≠ "111") ∧
    signup genHash (some "A") (some "a@x") (some "111") (some "p") stEmpty =
      ({stEmpty with
          users := stEmpty.users ++ [⟨stEmpty.nextUserId, "A", "a@x", "111", genHash "p"⟩],
          nextUserId := stEmpty.nextUserId + 1},
       ⟨201, Body.msg true ("Account created successfully.")⟩) :=
  ⟨by decide, by decide, by decide, by decide, by decide, by decide,
   signup_success_spec genHash "A" "a@x" "111" "p" stEmpty (by decide) (by decide)
     (by decide) (by decide) (by decide) (by decide)⟩

/-- **C5**: a signup whose four fields are present and non-empty but whose
email equals a stored user's email or whose phone equals a stored user's
phone answers 409 and returns the state completely unchanged — no partial
write to the users table. -/
theorem signup_duplicate_conflict (gen : String → String) (n e p pw : String)
    (st : State) (hn : n ≠ "") (he : e ≠ "") (hp : p ≠ "") (hpw : pw ≠ "")
    (hdup : (∃ u ∈ st.users, u.email = e) ∨ (∃ u ∈ st.users, u.phone = p)) :
    signup gen (some n) (some e) (some p) (some pw) st =
      (st, ⟨409, Body.err ("Email or phone number already registered.")⟩) := by
  have h1 : falsy (some n) = false := by simp [falsy, hn]
  have h2 : falsy (some e) = false := by simp [falsy, he]
  have h3 : falsy (some p) = false := by simp [falsy, hp]
  have h4 : falsy (some pw) = false := by simp [falsy, hpw]
  have hd : (st.users.any (fun u => u.email == (some e).getD "") ||
             st.users.any (fun u => u.phone == (some p).getD "")) = true := by
    simp only [Option.getD_some, Bool.or_eq_true, List.any_eq_true, beq_iff_eq]
    exact hdup
  simp [signup, h1, h2, h3, h4, hd]
  intro hall
  rcases hdup with ⟨u, hu, hue⟩ | h
  · exact absurd hue (hall u hu)
  · exact h

/-- Witness for C5: a second signup reusing Alice's email hits 409 and
leaves `stOne` untouched. -/
theorem signup_duplicate_conflict_witness :
    (("B" : String) ≠ "" ∧ ("a@x" : String) ≠ "" ∧ ("222" : String) ≠ "" ∧
      ("q" : String) ≠ "" ∧ ∃ u ∈ stOne.users, u.email = "a@x") ∧
    signup genHash (some "B") (some "a@x") (some "222") (some "q") stOne =
      (stOne, ⟨409, Body.err ("Email or phone number already registered.")⟩) :=
  ⟨⟨by decide, by decide, by decide, by decide, ⟨uAlice, by decide, by decide⟩⟩,
   signup_duplicate_conflict genHash "B" "a@x" "222" "q" stOne (by decide)
     (by decide) (by decide) (by decide) (Or.inl ⟨uAlice, by decide, by decide⟩)⟩

/-- **C2**: with user `u` signed in, cancelling a booking id that exists but
belongs to another user and cancelling an id that matches no booking at all
yield the very same 404 response with the same body, and in both cases the
state — in particular the bookings table — is unchanged. -/
theorem cancel_order_not_owned_eq_missing (st : State) (u : User) (i j : Nat)
    (hs : st.session = some u)
    (hnotmine : ∀ b ∈ st.bookings, b.id = i → b.user_id ≠ u.id)
    (_hother : ∃ b ∈ st.bookings, b.id = i ∧ b.user_id ≠ u.id)
    (hmissing : ∀ b ∈ st.bookings, b.id ≠ j) :
    cancel_order i st =
      (st, ⟨404, Body.err ("Order not found or not owned by user")⟩) ∧
    cancel_order j st =
      (st, ⟨404, Body.err ("Order not found or not owned by user")⟩) ∧
    (cancel_order i st).2 = (cancel_order j st).2 := by
  have hci : st.bookings.countP (fun b => b.id == i && b.user_id == u.id) = 0 := by
    rw [List.countP_eq_zero]
    intro b hb
    simp only [Bool.and_eq_true, beq_iff_eq, not_and]
    exact hnotmine b hb
  have hcj : st.bookings.countP (fun b => b.id == j && b.user_id == u.id) = 0 := by
    rw [List.countP_eq_zero]
    intro b hb
    simp only [Bool.and_eq_true, beq_iff_eq, not_and]
    exact fun hbj _ => hmissing b hb hbj
  have e1 : cancel_order i st =
      (st, ⟨404, Body.err ("Order not found or not owned by user")⟩) := by
    simp [cancel_order, hs, hci]
  have e2 : cancel_order j st =
      (st, ⟨404, Body.err ("Order not found or not owned by user")⟩) := by
    simp [cancel_order, hs, hcj]
  exact ⟨e1, e2, by rw [e1, e2]⟩

/-- Witness for C2: Alice cancels Bob's booking 2 and the nonexistent
booking 99; both attempts are observably identical. -/
theorem cancel_order_not_owned_eq_missing_witness :
    (stOrders.session = some uAlice ∧
      (∃ b ∈ stOrders.bookings, b.id = 2 ∧ b.user_id ≠ uAlice.id) ∧
      (∀ b ∈ stOrders.bookings, b.id ≠ 99)) ∧
    (cancel_order 2 stOrders).2 = (cancel_order 99 stOrders).2 :=
  ⟨⟨rfl, ⟨bk 2 2, by decide, by decide, by decide⟩, by decide⟩,
   (cancel_order_not_owned_eq_missing stOrders uAlice 2 99 rfl (by decide)
     ⟨bk 2 2, by decide, by decide, by decide⟩ (by decide)).2.2⟩

/-- **C4**: with user `u` signed in, `get_orders` answers 200 and leaves the
state unchanged; a booking is returned iff it is stored with recorded owner
`u` — so never a booking of any other user — and the returned list is
sorted by booking id in descending order. -/
theorem get_orders_spec (st : State) (u : User) (hs : st.session = some u) :
    get_orders st = (st, ⟨200, Body.orders (listOrdersFor u.id st)⟩) ∧
    (∀ b ∈ listOrdersFor u.id st, b.user_id = u.id) ∧
    (∀ b, b ∈ listOrdersFor u.id st ↔ b ∈ st.bookings ∧ b.user_id = u.id) ∧
    (listOrdersFor u.id st).Pairwise (fun x y => y.id ≤ x.id) := by
  have hmem : ∀ b, b ∈ listOrdersFor u.id st ↔ b ∈ st.bookings ∧ b.user_id = u.id := by
    intro b
    rw [listOrdersFor, mem_sortDesc, List.mem_filter, beq_iff_eq]
  exact ⟨by simp [get_orders, hs], fun b hb => ((hmem b).mp hb).2, hmem,
    pairwise_sortDesc _ _⟩

/-- Witness for C4: Alice's orders in `stOrders` are exactly her bookings 3
and 1, newest first. -/
theorem get_orders_spec_witness :
    stOrders.session = some uAlice ∧
    get_orders stOrders =
      (stOrders, ⟨200, Body.orders (listOrdersFor uAlice.id stOrders)⟩) ∧
    listOrdersFor uAlice.id stOrders = [bk 3 1, bk 1 1] :=
  ⟨rfl, (get_orders_spec stOrders uAlice rfl).1, by decide⟩

/-- **C7**: when the feedback table's ids ascend in insertion order (SERIAL
assignment), `list_feedback` answers 200 with at most 10 rows, namely the
last 10 inserted rows most recently inserted first. -/
theorem list_feedback_spec (st : State)
    (hinc : st.feedback.Pairwise (fun x y => x.id < y.id)) :
    ∃ rows, list_feedback st = (st, ⟨200, Body.feedbacks rows⟩) ∧
      rows.length ≤ 10 ∧ rows = st.feedback.reverse.take 10 := by
  refine ⟨(sortDesc (fun f => f.id) st.feedback).take 10, ?_, ?_, ?_⟩
  · rfl
  · simp [List.length_take]
  · rw [sortDesc_eq_reverse (fun f => f.id) st.feedback hinc]

/-- Witness for C7: twelve feedback rows, of which exactly the last ten come
back, newest first. -/
theorem list_feedback_spec_witness :
    stFb.feedback.Pairwise (fun x y => x.id < y.id) ∧
    ∃ rows, list_feedback stFb = (stFb, ⟨200, Body.feedbacks rows⟩) ∧
      rows.length ≤ 10 ∧ rows = stFb.feedback.reverse.take 10 :=
  ⟨by decide, list_feedback_spec stFb (by decide)⟩

/-- **C1** (counterexample): in `stCross` the identifier "111" is the first
user's phone and the second user's email; `signin` fetches only the first
matching row, so signing in with the second user's correct password answers
401 even though a stored user's email equals the identifier and that user's
hash verifies against the supplied password. -/
theorem signin_first_match_only :
    (signin chkHash (some "111") (some "p2") stCross).2.status = 401 ∧
    ∃ u ∈ stCross.users, (u.email = "111" ∨ u.phone = "111") ∧
      chkHash u.password "p2" = true := by
  decide

/-- **C1** (amended): for non-empty credentials, `signin` succeeds (200)
iff the first stored user in table order whose email or phone equals the
identifier has a hash verifying the supplied password; in that case the
session is set to that user; every other non-empty input answers 401 with
the state unchanged. -/
theorem signin_first_match_spec (chk : String → String → Bool) (st : State)
    (login password : String) (hl : login ≠ "") (hp : password ≠ "") :
    ((signin chk (some login) (some password) st).2.status = 200 ↔
      ∃ u, st.users.find? (fun u => u.email == login || u.phone == login) = some u ∧
        chk u.password password = true) ∧
    (∀ u, st.users.find? (fun u => u.email == login || u.phone == login) = some u →
      chk u.password password = true →
      signin chk (some login) (some password) st =
        ({st with session := some u},
         ⟨200, Body.signinOk ("Login successful.") u⟩)) ∧
    ((¬∃ u, st.users.find? (fun u => u.email == login || u.phone == login) = some u ∧
        chk u.password password = true) →
      signin chk (some login) (some password) st =
        (st, ⟨401, Body.err ("Invalid credentials")⟩)) := by
  have h1 : falsy (some login) = false := by simp [falsy, hl]
  have h2 : falsy (some password) = false := by simp [falsy, hp]
  cases hfind : st.users.find? (fun u => u.email == login || u.phone == login) with
  | none =>
    have e : signin chk (some login) (some password) st =
        (st, ⟨401, Body.err ("Invalid credentials")⟩) := by
      simp [signin, h1, h2, hfind]
    refine ⟨by rw [e]; simp, ?_, fun _ => e⟩
    intro v hv
    exact absurd hv (by simp)
  | some u =>
    by_cases hchk : chk u.password password = true
    · have e : signin chk (some login) (some password) st =
          ({st with session := some u},
           ⟨200, Body.signinOk ("Login successful.") u⟩) := by
        simp [signin, h1, h2, hfind, hchk]
      refine ⟨⟨fun _ => ⟨u, rfl, hchk⟩, fun _ => by rw [e]⟩, ?_,
        fun hne => absurd ⟨u, rfl, hchk⟩ hne⟩
      intro v hv hcv
      injection hv with hv
      subst hv
      exact e
    · have hchk0 : chk u.password password = false := by
        cases h : chk u.password password
        · rfl
        · exact absurd h hchk
      have e : signin chk (some login) (some password) st =
          (st, ⟨401, Body.err ("Invalid credentials")⟩) := by
        simp [signin, h1, h2, hfind, hchk0]
      refine ⟨?_, ?_, fun _ => e⟩
      · rw [e]
        simp [hchk0]
      · intro v hv hcv
        injection hv with hv
        subst hv
        rw [hchk0] at hcv
        exact absurd hcv (by simp)

/-- Witness for the amended C1: Alice signs in with her email and correct
password in `stOne` and gets 200. -/
theorem signin_first_match_spec_witness :
    ("a@x" : String) ≠ "" ∧ ("p" : String) ≠ "" ∧
    (signin chkHash (some "a@x") (some "p") stOne).2.status = 200 :=
  ⟨by decide, by decide,
   ((signin_first_match_spec chkHash stOne "a@x" "p" (by decide) (by decide)).1).mpr
     ⟨uAlice, by decide, by decide⟩⟩

/-- **C9**: a successful authenticated status update answers 200 and changes
only the `status` field of the booking rows matching both the order id and
the caller's id; every other row (positionally), every other field of the
matched row, and every other state component is unchanged. -/
theorem update_order_status_frame (st : State) (u : User) (i : Nat) (s : String)
    (hs : st.session = some u) (hne : s ≠ "")
    (hmatch : ∃ b ∈ st.bookings, b.id = i ∧ b.user_id = u.id) :
    (update_order_status i (some s) st).2 =
      ⟨200, Body.msg true ("Order status updated to " ++ s ++ ".")⟩ ∧
    (update_order_status i (some s) st).1.users = st.users ∧
    (update_order_status i (some s) st).1.feedback = st.feedback ∧
    (update_order_status i (some s) st).1.session = st.session ∧
    (update_order_status i (some s) st).1.nextUserId = st.nextUserId ∧
    (update_order_status i (some s) st).1.nextBookingId = st.nextBookingId ∧
    (update_order_status i (some s) st).1.nextFeedbackId = st.nextFeedbackId ∧
    (update_order_status i (some s) st).1.bookings.length = st.bookings.length ∧
    (∀ (k : Nat) (b b' : Booking), st.bookings[k]? = some b →
      (update_order_status i (some s) st).1.bookings[k]? = some b' →
      (b'.id = b.id ∧ b'.user_id = b.user_id ∧ b'.name = b.name ∧
       b'.phone = b.phone ∧ b'.email = b.email ∧ b'.car_type = b.car_type ∧
       b'.service_type = b.service_type ∧ b'.date = b.date ∧
       b'.time = b.time ∧ b'.address = b.address) ∧
      (b.id = i ∧ b.user_id = u.id → b'.status = s) ∧
      (¬(b.id = i ∧ b.user_id = u.id) → b' = b)) := by
  have hne0 : falsy (some s) = false := by simp [falsy, hne]
  have hc : st.bookings.countP (fun b => b.id == i && b.user_id == u.id) ≠ 0 := by
    rw [Ne, List.countP_eq_zero]
    push_neg
    obtain ⟨b, hb, hbi, hbu⟩ := hmatch
    exact ⟨b, hb, by simp [hbi, hbu]⟩
  have hred : update_order_status i (some s) st =
      ({st with
          bookings := List.map
              (fun b => if b.id == i && b.user_id == u.id then
                {b with status := s} else b)
              st.bookings},
       ⟨200, Body.msg true ("Order status updated to " ++ s ++ ".")⟩) := by
    simp [update_order_status, hs, hne0, hc, Option.getD_some]
  rw [hred]
  refine ⟨rfl, rfl, rfl, rfl, rfl, rfl, rfl, by simp, ?_⟩
  intro k b b' hb hb'
  rw [List.getElem?_map, hb] at hb'
  injection hb' with hb'
  subst hb'
  by_cases hmb : b.id = i ∧ b.user_id = u.id
  · have ht : (b.id == i && b.user_id == u.id) = true := by
      simp [hmb.1, hmb.2]
    simp [ht, hmb]
  · have hf : (b.id == i && b.user_id == u.id) = false := by
      cases h : (b.id == i && b.user_id == u.id)
      · rfl
      · exact absurd (by simpa using h) hmb
    simp [hf, hmb]

/-- Witness for C9: Alice updates her booking 1 to "Done" in `stOrders`. -/
theorem update_order_status_frame_witness :
    (stOrders.session = some uAlice ∧ ("Done" : String) ≠ "" ∧
      ∃ b ∈ stOrders.bookings, b.id = 1 ∧ b.user_id = uAlice.id) ∧
    (update_order_status 1 (some "Done") stOrders).2 =
      ⟨200, Body.msg true ("Order status updated to Done.")⟩ :=
  ⟨⟨rfl, by decide, ⟨bk 1 1, by decide, by decide, by decide⟩⟩,
   (update_order_status_frame stOrders uAlice 1 "Done" rfl (by decide)
     ⟨bk 1 1, by decide, by decide, by decide⟩).1⟩
